import Mathlib

/-!
# Verification of the rttanalyzer trace pipeline

A shallow embedding, in Lean 4, of the core of the `rttanalyzer` repository:
the trace-record lexer and parser (`sink` package), the cursor table
(`CursorTrackerProtected`), the watch-list loader (`loadSQL`), the
position-aware trace-file reader (`TraceFile.ReadRecords`), the roster
persistence (`Roster.Save` / `LoadRoster`), the miner loop step
(`miner.Mine`) and the watchdog wiring (`output`, `stat.addOrGetTrace`,
`checkFile`).

Modelling conventions:
* Go strings are modelled as Lean `String` / `List Char` (byte positions
  become character positions; the inputs of interest are ASCII).
* Go `float64` arithmetic (`float64(ela)/1000` and its comparisons) is
  modelled with exact rational arithmetic `Rat`.
* Go maps are modelled as association lists with first-key-wins lookup.
* `log.Fatal` (process termination) and runtime panics are modelled as
  dedicated outcome constructors, distinct from returned errors.
* Locking (`sync.RWMutex`) is modelled by each protected operation being a
  single atomic step of the state-passing function.
-/

set_option autoImplicit false

namespace Rtta

/-! ## Generic association-list operations (Go map model) -/

/-- Lookup in a Go map modelled as an association list (first match wins). -/
def lookupKey {κ α : Type} [DecidableEq κ] : List (κ × α) → κ → Option α
  | [], _ => none
  | (k, v) :: rest, key => if k = key then some v else lookupKey rest key

/-- Go map assignment `m[k] = v`: replace the existing binding or append. -/
def setKey {κ α : Type} [DecidableEq κ] : List (κ × α) → κ → α → List (κ × α)
  | [], key, v => [(key, v)]
  | (k, w) :: rest, key, v =>
    if k = key then (key, v) :: rest else (k, w) :: setKey rest key v

/-- Go map deletion `delete(m, k)`. -/
def delKey {κ α : Type} [DecidableEq κ] : List (κ × α) → κ → List (κ × α)
  | [], _ => []
  | (k, w) :: rest, key => if k = key then rest else (k, w) :: delKey rest key

/-! ## String helpers (models of the Go standard-library calls used) -/

/-- Model of `strings.HasPrefix` on character lists. -/
def chStartsWith : List Char → List Char → Bool
  | _, [] => true
  | [], _ :: _ => false
  | c :: cs, p :: ps => c = p && chStartsWith cs ps

/-- Model of `strings.Contains` on character lists. -/
def chContains : List Char → List Char → Bool
  | [], pat => pat.isEmpty
  | c :: cs, pat => chStartsWith (c :: cs) pat || chContains cs pat

/-- Split a character list at every separator, keeping empty fields
(the raw splitting underlying `strings.Fields` / `strings.FieldsFunc`). -/
def splitSep (p : Char → Bool) : List Char → List (List Char)
  | [] => [[]]
  | c :: cs =>
    match splitSep p cs with
    | [] => [[]]
    | w :: ws => if p c then [] :: w :: ws else (c :: w) :: ws

/-- Model of `strings.FieldsFunc`: split at separators and drop empty fields.
`strings.Fields` is the same with the whitespace separator predicate. -/
def fieldsBy (p : Char → Bool) (s : String) : List String :=
  ((splitSep p s.data).filter (fun w => !w.isEmpty)).map String.mk

/-- Model of `strings.Fields rec` (split on whitespace). -/
def strFields (s : String) : List String :=
  fieldsBy Char.isWhitespace s

/-- The separator set used by `parseExec`'s `strings.FieldsFunc` call. -/
def execSep (c : Char) : Bool :=
  c = '#' || c = ':' || c = ',' || c = '=' || c = ' '

/-- Go string slicing `s[n:]` (character positions; inputs are ASCII). -/
def sliceFrom (s : String) (n : Nat) : String :=
  String.mk (s.data.drop n)

/-- Remove the first `n` occurrences of a character:
model of `strings.Replace(s, old, "", n)` for a one-character `old`. -/
def removeCharN (c : Char) : Nat → List Char → List Char
  | _, [] => []
  | 0, l => l
  | n + 1, x :: xs =>
    if x = c then removeCharN c n xs else x :: removeCharN c (n + 1) xs

/-! ## `strconv.Atoi` -/

/-- Accumulate decimal digits; fails on any non-digit character. -/
def digitsValAux : Nat → List Char → Option Nat
  | acc, [] => some acc
  | acc, c :: cs =>
    if c.isDigit then digitsValAux (acc * 10 + (c.toNat - 48)) cs else none

/-- Model of `strconv.Atoi` on a 64-bit platform: optional sign, at least one
digit, all characters digits, result within the `int64` range. -/
def Atoi (s : String) : Option Int :=
  match s.data with
  | [] => none
  | c :: rest =>
    if c = '+' then
      match rest, digitsValAux 0 rest with
      | _ :: _, some n => if n ≤ 2 ^ 63 - 1 then some (Int.ofNat n) else none
      | _, _ => none
    else if c = '-' then
      match rest, digitsValAux 0 rest with
      | _ :: _, some n => if n ≤ 2 ^ 63 then some (-(Int.ofNat n)) else none
      | _, _ => none
    else
      match digitsValAux 0 (c :: rest) with
      | some n => if n ≤ 2 ^ 63 - 1 then some (Int.ofNat n) else none
      | none => none

/-! ## Data model (packages `cursor` and `sink`) -/

/-- `cursor.Cursor`: performance stats mined from a trace file. -/
structure Cursor where
  CursorID : Int
  SQLID : String
  BusinessTxName : String
  ELAThreshold : Int
  hashValue : String
  length : Int
  depth : Int
  uID : Int
  lID : Int
  oct : Int
  deriving DecidableEq, Repr

/-- `cursor.NewCursor`. -/
def NewCursor (cursorID : Int) (SQLID businessTxName : String) (elaThreshold : Int)
    (hashValue : String) (length depth uID lID oct : Int) : Cursor :=
  { CursorID := cursorID, SQLID := SQLID, BusinessTxName := businessTxName,
    ELAThreshold := elaThreshold, hashValue := hashValue, length := length,
    depth := depth, uID := uID, lID := lID, oct := oct }

/-- `sink.MonitoredSQL`: one watch-list row plus its rolling stats.
`LastELA` and `WorstELA` are Go `float64` fields, modelled as `Rat`. -/
structure MonitoredSQL where
  BusinessTxName : String
  ELAThreshold : Int
  SQLID : List String
  LastELA : Rat
  WorstELA : Rat
  NumViolations : Int
  deriving DecidableEq, Repr

/-- The `Cursors map[int64]*cursor.Cursor` field of
`sink.CursorTrackerProtected`, as an association list. -/
abbrev CursorTracker := List (Int × Cursor)

/-- `CursorTrackerProtected.get`. -/
def trackerGet (c : CursorTracker) (key : Int) : Option Cursor :=
  lookupKey c key

/-- `CursorTrackerProtected.hasValue`. -/
def trackerHasValue (c : CursorTracker) (key : Int) : Bool :=
  (lookupKey c key).isSome

/-- Errors returned by `CursorTrackerProtected.compareAndSet`:
the sentinel `errExistingCursor`, or a wrapped error from `open`. -/
inductive CASErr where
  | existingCursor
  | openErr (msg : String)
  deriving DecidableEq, Repr

/-- `CursorTrackerProtected.compareAndSet`: under the exclusive lock
(the whole function is one atomic step here), report an existing cursor,
or invoke `openFn` (the Go `open` argument) and insert its result on success.  The final `Bool`
records whether `openFn` was invoked on this path. -/
def compareAndSet (c : CursorTracker) (key : Int)
    (openFn : Unit → Except String Cursor) :
    Except CASErr Cursor × CursorTracker × Bool :=
  match lookupKey c key with
  | some _ => (.error .existingCursor, c, false)
  | none =>
    match openFn () with
    | .error e => (.error (.openErr ("compareAndSet: error from calling open: " ++ e)), c, true)
    | .ok cur => (.ok cur, setKey c key cur, true)

/-- `sink.parsedSummary`: consolidated trace-record data.
`threshold`, `worstELA` and `lastELA` are Go `float64`, modelled as `Rat`. -/
structure parsedSummary where
  isViolation : Bool
  businessTxName : String
  threshold : Rat
  sqlID : String
  worstELA : Rat
  lastELA : Rat
  numViolations : Int
  deriving DecidableEq, Repr

/-- The zero value `&parsedSummary{}` returned on every non-violation path. -/
def emptySummary : parsedSummary :=
  { isViolation := false, businessTxName := "", threshold := 0, sqlID := "",
    worstELA := 0, lastELA := 0, numViolations := 0 }

/-! ## Trace record lexer -/

/-- `sink.traceRecordTypeInvalid` (iota = 0). -/
def traceRecordTypeInvalid : Nat := 0

/-- `sink.traceRecordTypeParsingInCursor` (iota = 1). -/
def traceRecordTypeParsingInCursor : Nat := 1

/-- `sink.traceRecordTypeParseExecFetch` (iota = 2). -/
def traceRecordTypeParseExecFetch : Nat := 2

/-- `sink.traceRecordType`: classify one trace record. -/
def traceRecordType (rec : String) : Nat :=
  if chStartsWith rec.data "PARSING IN CURSOR".data && chContains rec.data "sqlid".data then
    traceRecordTypeParsingInCursor
  else if chStartsWith rec.data "PARSE #".data || chStartsWith rec.data "EXEC #".data
      || chStartsWith rec.data "FETCH #".data then
    traceRecordTypeParseExecFetch
  else
    traceRecordTypeInvalid

/-! ## Field extraction for `PARSING IN CURSOR` records -/

/-- `sink.parseSQLID`: extract the SQL ID (token 12, past the 7-character
`sqlid=` marker, with the first two quote characters removed) and the
cursor number string (token 3 without its leading hash). -/
def parseSQLID (rec : String) : Except String (String × String) :=
  let words := strFields rec
  if words.length ≤ 12 then
    .error "parseSQLID: expected number of words is 12"
  else
    .ok (String.mk (removeCharN (Char.ofNat 39) 2 (sliceFrom (words.getD 12 "") 7).data),
         sliceFrom (words.getD 3 "") 1)

/-- `sink.parsedOtherAttr`. -/
structure parsedOtherAttr where
  hashValue : String
  length : Int
  depth : Int
  uID : Int
  lID : Int
  oct : Int
  deriving DecidableEq, Repr

/-- `sink.parseOtherAttr`: extract the remaining cursor attributes from a
`PARSING IN CURSOR` record. -/
def parseOtherAttr (rec : String) : Except String parsedOtherAttr :=
  let words := strFields rec
  if words.length ≤ 10 then
    .error "parseOtherAttr: expected number of words is 10"
  else
    match Atoi (sliceFrom (words.getD 4 "") 4) with
    | none => .error "parseOtherAttr: cannot parse length"
    | some length =>
    match Atoi (sliceFrom (words.getD 5 "") 4) with
    | none => .error "parseOtherAttr: cannot parse depth"
    | some depth =>
    match Atoi (sliceFrom (words.getD 6 "") 4) with
    | none => .error "parseOtherAttr: cannot parse uID"
    | some uID =>
    match Atoi (sliceFrom (words.getD 7 "") 4) with
    | none => .error "parseOtherAttr: cannot parse oct"
    | some oct =>
    match Atoi (sliceFrom (words.getD 8 "") 4) with
    | none => .error "parseOtherAttr: cannot parse lID"
    | some lID =>
      .ok { hashValue := sliceFrom (words.getD 10 "") 3, length := length,
            depth := depth, uID := uID, lID := lID, oct := oct }

/-- `sink.openCursor`: parse the other attributes and build the new cursor. -/
def openCursor (rec : String) (getCursorID : Int) (getSQLID businessTxName : String)
    (elaThreshold : Int) : Except String Cursor :=
  match parseOtherAttr rec with
  | .error e => .error e
  | .ok otherAttr =>
    .ok (NewCursor getCursorID getSQLID businessTxName elaThreshold
      otherAttr.hashValue otherAttr.length otherAttr.depth otherAttr.uID
      otherAttr.lID otherAttr.oct)

/-- `sink.interestingSQL`: linear scan of the watch list for a SQL ID. -/
def interestingSQL (getSQLID : String) : List MonitoredSQL → Bool × String × Int
  | [] => (false, "", -1)
  | sw :: rest =>
    if sw.SQLID.contains getSQLID then (true, sw.BusinessTxName, sw.ELAThreshold)
    else interestingSQL getSQLID rest

/-! ## `PARSE|EXEC|FETCH` record parsing -/

/-- Outcome of `sink.parseExec`.  `fatal` models `log.Fatal(err)` — the call
terminates the whole process, making the `return` that follows it in the
source unreachable. -/
inductive ExecOutcome where
  | fatal (msg : String)
  | err (msg : String)
  | ok (known : Bool) (cursorID : Int) (cursorType : String) (cpu ela : Int)
  deriving DecidableEq, Repr

/-- `sink.parseExec`: split on `{'#',':',',','=',' '}`; parse the cursor
number (token 1); check the cursor table; only then parse CPU (token 3) and
elapsed (token 5), where a parse failure hits `log.Fatal`. -/
def parseExec (rec : String) (curTracker : CursorTracker) : ExecOutcome :=
  match fieldsBy execSep rec with
  | w0 :: w1 :: _w2 :: w3 :: _w4 :: w5 :: _rest =>
    match Atoi w1 with
    | none => .err "parseExec: cursor number does not appear to be a number"
    | some cursorInt =>
      if !trackerHasValue curTracker cursorInt then
        .ok false 0 "" 0 0
      else
        match Atoi w3 with
        | none => .fatal "parseExec: cannot get CPU"
        | some cInt =>
          match Atoi w5 with
          | none => .fatal "parseExec: cannot get ELA"
          | some eInt => .ok true cursorInt w0 cInt eInt
  | _ => .err "parseExec: expected number of words is least 5"

/-- `sink.setViolations`: find the watch-list row for the business tx, set
`LastELA`, raise `WorstELA` only if strictly exceeded, increment
`NumViolations`, and return the updated stats with the updated list. -/
def setViolations (wantSQL : List MonitoredSQL) (busTxName : String)
    (threshold : Rat) (sqlID : String) (elaF : Rat) :
    Except String (Rat × Rat × Int × List MonitoredSQL) :=
  match wantSQL with
  | [] => .error "setViolations: unexpected error, could not find last ELA"
  | sw :: rest =>
    if sw.BusinessTxName = busTxName then
      let upd : MonitoredSQL :=
        { sw with LastELA := elaF,
                  WorstELA := if sw.WorstELA < elaF then elaF else sw.WorstELA,
                  NumViolations := sw.NumViolations + 1 }
      .ok (upd.WorstELA, upd.LastELA, upd.NumViolations, upd :: rest)
    else
      match setViolations rest busTxName threshold sqlID elaF with
      | .error e => .error e
      | .ok (worst, last, num, rest') => .ok (worst, last, num, sw :: rest')

/-- `sink.parsingInCursor`: minimal parse of a `PARSING IN CURSOR` record,
watch-list lookup, and `compareAndSet` insertion of a freshly opened cursor.
Returns `(newCursor, cursorID, sqlID, businessTxName, elaThreshold)` plus
the updated cursor table. -/
def parsingInCursor (rec : String) (wantSQL : List MonitoredSQL)
    (curTracker : CursorTracker) :
    Except String ((Bool × Int × String × String × Int) × CursorTracker) :=
  match parseSQLID rec with
  | .error e => .error e
  | .ok (getSQLID, getCursorString) =>
    match Atoi getCursorString with
    | none => .error "parsingInCursor: error in CursorID string to int conversion"
    | some getCursorID =>
      let (isInterestingSQL, businessTxName, elaThreshold) :=
        interestingSQL getSQLID wantSQL
      if !isInterestingSQL then
        .ok ((true, -1, "", "", -1), curTracker)
      else
        match compareAndSet curTracker getCursorID
            (fun _ => openCursor rec getCursorID getSQLID businessTxName elaThreshold) with
        | (.error .existingCursor, tracker', _) =>
          .ok ((false, getCursorID, getSQLID, businessTxName, elaThreshold), tracker')
        | (.error (.openErr e), _, _) => .error e
        | (.ok _, tracker', _) => .ok ((true, -1, "", "", -1), tracker')

/-- Outcome of `sink.parseRecord`.  `fatal` models `log.Fatal` inside
`parseExec`; `nilDeref` models the nil-pointer dereference
`curTracker.get(getCursorID).SQLID` would take on an absent key; `err`
carries the error together with the (possibly mutated) shared state seen by
the caller; `ok` carries the summary and the updated shared state. -/
inductive RecOutcome where
  | fatal (msg : String)
  | nilDeref
  | err (msg : String) (wantSQL : List MonitoredSQL) (curTracker : CursorTracker)
  | ok (ps : parsedSummary) (wantSQL : List MonitoredSQL) (curTracker : CursorTracker)
  deriving DecidableEq, Repr

/-- `sink.parseRecord`: classify the record, run the `PARSING IN CURSOR`
open/reopen step or the `PARSE|EXEC|FETCH` violation step. -/
def parseRecord (rec : String) (wantSQL : List MonitoredSQL)
    (curTracker : CursorTracker) : RecOutcome :=
  let recValidClassifier := traceRecordType rec
  if recValidClassifier = traceRecordTypeInvalid then
    .ok emptySummary wantSQL curTracker
  else if recValidClassifier = traceRecordTypeParsingInCursor then
    match parsingInCursor rec wantSQL curTracker with
    | .error e => .err ("parseRecord: error from calling parsingInCursor: " ++ e) wantSQL curTracker
    | .ok ((newCursor, getCursorID, getSQLID, businessTxName, elaThreshold), tracker') =>
      if !newCursor then
        match trackerGet tracker' getCursorID with
        | none => .nilDeref
        | some openCur =>
          if getSQLID = openCur.SQLID then
            .ok emptySummary wantSQL tracker'
          else
            let afterDelete := delKey tracker' getCursorID
            match openCursor rec getCursorID getSQLID businessTxName elaThreshold with
            | .error e => .err e wantSQL afterDelete
            | .ok cur => .ok emptySummary wantSQL (setKey afterDelete getCursorID cur)
      else
        .ok emptySummary wantSQL tracker'
  else if recValidClassifier = traceRecordTypeParseExecFetch then
    match parseExec rec curTracker with
    | .fatal m => .fatal m
    | .err m => .err m wantSQL curTracker
    | .ok isKnown cursorID _cursorType _cpu ela =>
      if !isKnown then
        .ok emptySummary wantSQL curTracker
      else
        match trackerGet curTracker cursorID with
        | none => .nilDeref
        | some curTemp =>
          let threshold : Rat := (curTemp.ELAThreshold : Rat)
          let elaF : Rat := (ela : Rat) / 1000
          if elaF < threshold then
            .ok emptySummary wantSQL curTracker
          else
            match setViolations wantSQL curTemp.BusinessTxName threshold curTemp.SQLID elaF with
            | .error e => .err e wantSQL curTracker
            | .ok (worstELA, lastELA, numViolations, wantSQL') =>
              .ok { isViolation := true, businessTxName := curTemp.BusinessTxName,
                    threshold := threshold, sqlID := curTemp.SQLID,
                    worstELA := worstELA, lastELA := lastELA,
                    numViolations := numViolations } wantSQL' curTracker
  else
    .err "unknown trace record type" wantSQL curTracker

/-! ## Watch-list loader (`sink.loadSQL`) -/

/-- Outcome of the record loop of `sink.loadSQL`.  `panicOOB` models the Go
runtime panic raised by the unguarded `record[1]` index when a record has
fewer than two fields. -/
inductive LoadResult where
  | panicOOB
  | err (msg : String)
  | ok (s : List MonitoredSQL)
  deriving DecidableEq, Repr

/-- The record loop of `sink.loadSQL`, over the records already produced by
the CSV reader (`FieldsPerRecord = -1`, leading space trimmed, `#`-comment
lines dropped).  Each record is read as
`(record[0], Atoi record[1], record[2:])`; `record[1]` is indexed without a
length guard. -/
def loadSQLRecords : List (List String) → LoadResult
  | [] => .ok []
  | record :: rest =>
    match record.get? 1 with
    | none => .panicOOB
    | some field1 =>
      match Atoi field1 with
      | none => .err "loadSQL: threshold is not a number"
      | some elaThres =>
        match loadSQLRecords rest with
        | .ok s => .ok ({ BusinessTxName := record.headD "", ELAThreshold := elaThres,
                          SQLID := record.drop 2, LastELA := 0, WorstELA := 0,
                          NumViolations := 0 } :: s)
        | other => other

/-! ## Trace-file reader (`rttanalyzer.TraceFile.ReadRecords`) -/

/-- `bufio.ScanLines`' `dropCR`: strip one trailing carriage return. -/
def dropCR (l : List Char) : List Char :=
  match l.getLast? with
  | some c => if c = '\r' then l.dropLast else l
  | none => l

/-- Scan up to the first LF: returns the characters before it and whether an
LF was found (`false` means the data ran out first — a partial final line). -/
def scanFirstLine : List Char → List Char × Bool
  | [] => ([], false)
  | c :: cs =>
    if c = '\n' then ([], true)
    else
      let r := scanFirstLine cs
      (c :: r.1, r.2)

/-- `TraceFile.ReadRecords` with the package-level `recordsCount = 1`:
seek to `offset`, let `bufio.Scanner` (split function `ScanLines`) produce
the next token, add `len(token) + 1` to the offset and return the token with
an LF appended.  `ScanLines` also returns the final non-terminated token at
EOF, and strips a carriage return from the token it returns.  The file
content is the character list `content`; the result is the returned record
batch and the updated offset. -/
def readRecords (content : List Char) (offset : Nat) : List String × Nat :=
  let data := content.drop offset
  match data with
  | [] => ([], offset)
  | _ :: _ =>
    let (line, _sawLF) := scanFirstLine data
    let tok := dropCR line
    ([String.mk tok ++ "\n"], offset + tok.length + 1)

/-! ## Roster persistence (`rttanalyzer.Roster.Save` / `LoadRoster`) -/

/-- `rttanalyzer.jsonTraceFile`: the persisted form of a trace file entry. -/
structure jsonTraceFile where
  Name : String
  DirectoryName : String
  Version : Int
  Offset : Int
  deriving DecidableEq, Repr

/-- The `R map[string]jsonTraceFile` field of `rttanalyzer.Roster`. -/
abbrev RosterMap := List (String × jsonTraceFile)

/-- The fields of `rttanalyzer.TraceFile` that `Save` persists. -/
structure TraceFileState where
  Name : String
  DirectoryName : String
  version : Int
  offset : Int
  deriving DecidableEq, Repr

/-- `filepath.Join` on the two components `Save` joins (path cleaning is not
modelled; the components of interest contain no `.` or `..` segments). -/
def pathJoin (dir name : String) : String :=
  if dir = "" then name else if name = "" then dir else dir ++ "/" ++ name

/-- The serialized document produced by `json.MarshalIndent`: a key/value
tree with string and integer leaves (whitespace layout is not modelled). -/
inductive Json where
  | str (s : String)
  | int (n : Int)
  | obj (fields : List (String × Json))

/-- Marshalling of one `jsonTraceFile` (exported fields, by name). -/
def jtfToJson (t : jsonTraceFile) : Json :=
  .obj [("Name", .str t.Name), ("DirectoryName", .str t.DirectoryName),
        ("Version", .int t.Version), ("Offset", .int t.Offset)]

/-- Marshalling of the roster map: the top-level object maps each
`join(DirectoryName, Name)` key to its marshalled record.  (Go sorts the
keys of a marshalled map; key order is not observable through the mapping
and is not modelled.) -/
def marshalRoster (m : RosterMap) : Json :=
  .obj (m.map (fun p => (p.1, jtfToJson p.2)))

/-- `json.Unmarshal` field access: look a field up by name in an object. -/
def jsonField (j : Json) (name : String) : Option Json :=
  match j with
  | .obj fields => lookupKey fields name
  | _ => none

/-- Decode a string leaf. -/
def jsonAsStr : Json → Option String
  | .str s => some s
  | _ => none

/-- Decode an integer leaf. -/
def jsonAsInt : Json → Option Int
  | .int n => some n
  | _ => none

/-- Unmarshalling of one `jsonTraceFile` (by field name). -/
def jsonToJtf (j : Json) : Option jsonTraceFile :=
  match jsonField j "Name" with
  | none => none
  | some jn =>
  match jsonAsStr jn with
  | none => none
  | some n =>
  match jsonField j "DirectoryName" with
  | none => none
  | some jd =>
  match jsonAsStr jd with
  | none => none
  | some d =>
  match jsonField j "Version" with
  | none => none
  | some jv =>
  match jsonAsInt jv with
  | none => none
  | some v =>
  match jsonField j "Offset" with
  | none => none
  | some jo =>
  match jsonAsInt jo with
  | none => none
  | some o => some { Name := n, DirectoryName := d, Version := v, Offset := o }

/-- Decode all entries of the top-level object, in order. -/
def decodeEntries : List (String × Json) → Option RosterMap
  | [] => some []
  | (k, j) :: rest =>
    match jsonToJtf j with
    | none => none
    | some t =>
      match decodeEntries rest with
      | none => none
      | some r => some ((k, t) :: r)

/-- `LoadRoster`'s `json.Unmarshal` of a roster document. -/
def unmarshalRoster (j : Json) : Option RosterMap :=
  match j with
  | .obj fields => decodeEntries fields
  | _ => none

/-- `Roster.Save` (under the roster lock): upsert the record keyed by
`join(tf.DirectoryName, tf.Name)` and serialize the whole roster.  Returns
the in-memory map after the upsert and the document written to disk. -/
def rosterSave (m : RosterMap) (tf : TraceFileState) : RosterMap × Json :=
  let traceKey := pathJoin tf.DirectoryName tf.Name
  let m' := setKey m traceKey
    { Name := tf.Name, DirectoryName := tf.DirectoryName,
      Version := tf.version, Offset := tf.offset }
  (m', marshalRoster m')

/-! ## Miner loop step (`miner.Mine`) -/

/-- What one pass of `Mine`'s `for` loop does next. -/
inductive MineStep where
  | exitErr (msg : String)
  | exitClean
  | continueLoop
  deriving DecidableEq, Repr

/-- The `for _, v := range strs` body: first `Dump` error aborts the loop. -/
def dumpAll (dump : String → Except String Unit) : List String → Except String Unit
  | [] => .ok ()
  | v :: rest =>
    match dump v with
    | .error e => .error e
    | .ok () => dumpAll dump rest

/-- One iteration of `miner.Mine`'s loop: `ReadRecords`, dump every record,
and on an empty batch call `tf.UpdateRoster()` — whose result the source
discards — then block on the wake channel (`wakeOk = false` models a closed
channel).  `saveRes` is the result `UpdateRoster` would return. -/
def mineIteration (readRes : Except String (List String))
    (dump : String → Except String Unit) (saveRes : Except String Unit)
    (wakeOk : Bool) : MineStep :=
  match readRes with
  | .error e => .exitErr e
  | .ok strs =>
    match dumpAll dump strs with
    | .error e => .exitErr e
    | .ok () =>
      if strs.length = 0 then
        -- tf.UpdateRoster() is called here; its error value is dropped.
        let _ := saveRes
        if wakeOk then .continueLoop else .exitClean
      else .continueLoop

/-! ## Watchdog wiring (`watchdog.output`, `stat`, `checkFile`) -/

/-- The identity of one allocated `sink.CursorTrackerProtected` instance. -/
structure TrackerRef where
  id : Nat
  deriving DecidableEq, Repr

/-- Allocation state: the next fresh tracker identity. -/
structure AllocSt where
  next : Nat
  deriving DecidableEq, Repr

/-- One `&sink.CursorTrackerProtected{...}` allocation. -/
def allocTracker (s : AllocSt) : TrackerRef × AllocSt :=
  ({ id := s.next }, { next := s.next + 1 })

/-- The parts of the constructed `miner.Dumper` (Varz or PubSub sink) that
matter here: which cursor-tracker instance its `Generic` embeds. -/
structure DumperModel where
  dbName : String
  outputType : String
  fileSQL : String
  tracker : TrackerRef
  deriving DecidableEq, Repr

/-- `watchdog.output`: allocate `cur` once, then build the Varz or PubSub
dumper around that same tracker; any other output type is an error. -/
def output (s : AllocSt) (dbName outputType sqlFile : String) :
    Except String DumperModel × AllocSt :=
  let (cur, s') := allocTracker s
  if outputType = "varz" then
    (.ok { dbName := dbName, outputType := "varz", fileSQL := sqlFile, tracker := cur }, s')
  else if outputType = "pubsub" then
    (.ok { dbName := dbName, outputType := "pubsub", fileSQL := sqlFile, tracker := cur }, s')
  else
    (.error "output error: outputtype can be one of varz, pubsub", s')

/-- A wake channel as created by `stat.addOrGetTrace`.  `make(chan struct)`
with no size argument allocates an unbuffered channel: capacity 0. -/
structure WakeChan where
  capacity : Nat
  deriving DecidableEq, Repr

/-- The `make(chan struct{})` call at the end of `addOrGetTrace`
(written in the source with an empty struct type and no buffer size). -/
def makeWakeChan : WakeChan :=
  { capacity := 0 }

/-- The `traces map[string]chan struct` state of `watchdog.stat`. -/
structure TraceStat where
  traces : List (String × WakeChan)
  deriving DecidableEq, Repr

/-- `stat.addOrGetTrace`: the double-checked (read-lock, then write-lock)
lookup collapses to one atomic check in this sequential model; a missing
entry gets a fresh wake channel. -/
def addOrGetTrace (s : TraceStat) (key : String) : Bool × WakeChan × TraceStat :=
  match lookupKey s.traces key with
  | some ch => (false, ch, s)
  | none =>
    let ch := makeWakeChan
    (true, ch, { traces := setKey s.traces key ch })

/-- Runtime state of one Go channel for the send step. -/
structure ChanState where
  capacity : Nat
  queued : Nat
  receiverReady : Bool
  deriving DecidableEq, Repr

/-- Result of executing one Go channel send. -/
inductive SendResult where
  | delivered (c : ChanState)
  | buffered (c : ChanState)
  | blocked
  deriving DecidableEq, Repr

/-- Go semantics of the plain send statement used in `checkFile`
(`ch <- struct` value, with no surrounding `select`/`default`): hand off to
a waiting receiver, otherwise buffer if there is room, otherwise the sender
blocks. -/
def chanSend (c : ChanState) : SendResult :=
  if c.receiverReady then .delivered { c with receiverReady := false }
  else if c.queued < c.capacity then .buffered { c with queued := c.queued + 1 }
  else .blocked

/-- `path.Base`: the part of the path after the last slash. -/
def pathBase (s : String) : String :=
  String.mk ((s.data.reverse.takeWhile (fun c => c ≠ '/')).reverse)

/-- `filepath.Ext`: the suffix of the base name starting at its final dot,
or the empty string if the base name has no dot. -/
def pathExt (s : String) : String :=
  let revBase := (pathBase s).data.reverse
  if revBase.contains '.' then
    "." ++ String.mk ((revBase.takeWhile (fun c => c ≠ '.')).reverse)
  else ""

/-- The trace-file acceptance filter at the top of `watchdog.checkFile`:
require the `.trc` extension and the `dbName_ora_` base-name marker. -/
def checkFileAccepts (dbName fileName : String) : Bool :=
  pathExt fileName = ".trc"
    && chStartsWith (pathBase fileName).data (dbName ++ "_ora_").data

/-- Which cursor-tracker instance the Miner spawned by `checkFile` for
`fileName` operates on: `checkFile` receives the one dumper built by `Run`'s
single `output` call and hands exactly that dumper to `miner.Mine`. -/
def checkFileMinerTracker (dumper : DumperModel) (dbName fileName : String) :
    Option TrackerRef :=
  if checkFileAccepts dbName fileName then some dumper.tracker else none

/-- The wake delivery path of `checkFile`: when `addOrGetTrace` reports an
existing miner, the watchdog executes the plain blocking send
`ch <- struct` value on the stored channel (which holds no queued values
when the miner has drained it). -/
def checkFileWake (s : TraceStat) (key : String) (receiverReady : Bool) :
    Option SendResult :=
  match addOrGetTrace s key with
  | (false, ch, _) =>
    some (chanSend { capacity := ch.capacity, queued := 0, receiverReady := receiverReady })
  | (true, _, _) => none

/-! ## Concrete fixtures used by the witness theorems -/

/-- Whether the watch-list load completed without error or panic. -/
def loadResultIsOk : LoadResult → Bool
  | .ok _ => true
  | _ => false

/-- Cursor 17, open for SQL `abc` of business tx `OE` with threshold 1 ms
(the spec's scenario S1). -/
def cur17 : Cursor := NewCursor 17 "abc" "OE" 1 "99" 120 0 0 0 3

/-- Cursor 1, same SQL, used for the fatal-parse input. -/
def cur1 : Cursor := NewCursor 1 "abc" "OE" 1 "99" 120 0 0 0 3

/-- The watch-list row for business tx `OE` with fresh rolling stats. -/
def oeRow : MonitoredSQL :=
  { BusinessTxName := "OE", ELAThreshold := 1, SQLID := ["abc"],
    LastELA := 0, WorstELA := 0, NumViolations := 0 }

/-- The dumper built by the watchdog's single `output` call. -/
def varzDumper : DumperModel :=
  { dbName := "db", outputType := "varz", fileSQL := "rtta.sqlinput",
    tracker := { id := 0 } }

/-- A watchdog trace table already tracking one file. -/
def statF : TraceStat := { traces := [("f", { capacity := 0 })] }

/-! # Theorems -/

/-! ## Helper lemmas -/

/-- A successful association-list lookup locates a member of the list. -/
theorem lookupKey_mem {κ α : Type} [DecidableEq κ] (l : List (κ × α)) (k : κ) (v : α)
    (h : lookupKey l k = some v) : (k, v) ∈ l := by
  induction l with
  | nil => simp [lookupKey] at h
  | cons p rest ih =>
    obtain ⟨k', v'⟩ := p
    by_cases hk : k' = k
    · subst hk
      simp [lookupKey] at h
      simp [h]
    · simp [lookupKey, hk] at h
      exact List.mem_cons_of_mem _ (ih h)

/-- `setViolations` on a list that has a matching row after a non-matching
block: the first match is updated in place and its stats are returned. -/
theorem setViolations_found (pre post : List MonitoredSQL) (old : MonitoredSQL)
    (busTx : String) (thr : Rat) (sqlID : String) (elaF : Rat)
    (hpre : ∀ e ∈ pre, e.BusinessTxName ≠ busTx)
    (hold : old.BusinessTxName = busTx) :
    setViolations (pre ++ old :: post) busTx thr sqlID elaF =
      .ok (if old.WorstELA < elaF then elaF else old.WorstELA, elaF,
           old.NumViolations + 1,
           pre ++ { old with LastELA := elaF,
                             WorstELA := if old.WorstELA < elaF then elaF else old.WorstELA,
                             NumViolations := old.NumViolations + 1 } :: post) := by
  induction pre with
  | nil => simp [setViolations, hold]
  | cons head tail ih =>
    have hhead : head.BusinessTxName ≠ busTx := hpre head (List.mem_cons_self _ _)
    have ih' := ih (fun e he => hpre e (List.mem_cons_of_mem _ he))
    simp only [List.cons_append, setViolations, if_neg hhead, List.append_eq, ih']

/-! ## C2: partial trailing lines and offset accounting of ReadRecords -/

/-- C2: on the file content `abc` with no terminating LF and persisted
offset 0, `ReadRecords` returns the partial trailing line (with an LF
appended) as a record and advances the offset to 4, one byte past the
3-byte file — contradicting the claim that un-terminated lines are never
returned and that the offset advances only over fully-terminated lines. -/
theorem readRecords_partial_line_returned :
    readRecords "abc".data 0 = (["abc\n"], 4)
    ∧ "abc".data.length = 3
    ∧ "abc".data.contains '\n' = false := by
  refine ⟨rfl, rfl, rfl⟩

/-! ## C3: numeric parse failure hits log.Fatal, terminating the process -/

/-- C3: on the record `EXEC #1:c=x,e=5` whose cursor 1 is present in the
cursor table, the non-numeric CPU field does not produce a propagated
error: `parseExec` reaches `log.Fatal`, which terminates the whole process
(the `return` after it in the source is unreachable), contradicting the
claim that a numeric parse failure is propagated and the process never
terminates. -/
theorem parseExec_numeric_failure_fatal :
    parseExec "EXEC #1:c=x,e=5" [(1, cur1)] = .fatal "parseExec: cannot get CPU"
    ∧ parseRecord "EXEC #1:c=x,e=5" [oeRow] [(1, cur1)]
        = .fatal "parseExec: cannot get CPU" := by
  refine ⟨rfl, rfl⟩

/-! ## C4: all Miners share the single CursorTracker built by output -/

/-- C4 counterexample: the watchdog's `Run` calls `output` exactly once;
the dumper it builds embeds the one `CursorTrackerProtected` allocated
there, and `checkFile` hands that same dumper to every Miner it spawns.
Two distinct accepted trace files therefore get the same tracker instance,
refuting the claim that distinct Miners operate on disjoint CursorTable
instances. -/
theorem miners_share_tracker_counterexample :
    (output { next := 0 } "db" "varz" "rtta.sqlinput").1 = .ok varzDumper
    ∧ checkFileMinerTracker varzDumper "db" "/u01/db_ora_1.trc" = some { id := 0 }
    ∧ checkFileMinerTracker varzDumper "db" "/u01/db_ora_2.trc" = some { id := 0 }
    ∧ ("/u01/db_ora_1.trc" : String) ≠ "/u01/db_ora_2.trc" := by
  refine ⟨rfl, rfl, rfl, by decide⟩

/-- C4 (amended): every Miner spawned by one Watchdog run operates on the
single CursorTracker instance embedded in the one dumper built by `output`;
trackers of different Miners coincide instead of being disjoint. -/
theorem miners_single_tracker (d : DumperModel) (dbName f1 f2 : String)
    (t1 t2 : TrackerRef)
    (h1 : checkFileMinerTracker d dbName f1 = some t1)
    (h2 : checkFileMinerTracker d dbName f2 = some t2) :
    t1 = d.tracker ∧ t2 = d.tracker ∧ t1 = t2 := by
  unfold checkFileMinerTracker at h1 h2
  by_cases a1 : checkFileAccepts dbName f1 = true
  · by_cases a2 : checkFileAccepts dbName f2 = true
    · simp [a1] at h1
      simp [a2] at h2
      exact ⟨h1.symm, h2.symm, h1.symm.trans h2⟩
    · simp [a2] at h2
  · simp [a1] at h1

/-- C4 witness: the amended theorem applied to the two concrete trace
files of the counterexample. -/
theorem miners_single_tracker_witness :
    ({ id := 0 } : TrackerRef) = varzDumper.tracker
    ∧ ({ id := 0 } : TrackerRef) = varzDumper.tracker
    ∧ ({ id := 0 } : TrackerRef) = ({ id := 0 } : TrackerRef) :=
  miners_single_tracker varzDumper "db" "/u01/db_ora_1.trc" "/u01/db_ora_2.trc"
    { id := 0 } { id := 0 } rfl rfl

/-! ## C5: wake channels are unbuffered and the wake send blocks -/

/-- C5 counterexample: the wake channel `addOrGetTrace` creates is
`make(chan struct)` with no buffer size — capacity 0, not the claimed
capacity 1 — and the plain send `checkFile` executes on it blocks when no
receiver is waiting instead of dropping the extra wake. -/
theorem wake_channel_capacity_counterexample :
    (addOrGetTrace { traces := [] } "t1").2.1.capacity = 0
    ∧ (addOrGetTrace { traces := [] } "t1").2.1.capacity ≠ 1
    ∧ chanSend { capacity := (addOrGetTrace { traces := [] } "t1").2.1.capacity,
                 queued := 0, receiverReady := false } = .blocked := by
  refine ⟨rfl, by decide, rfl⟩

/-- C5 (amended): every wake channel the Watchdog creates is unbuffered
(capacity 0), and a filesystem event for an already-tracked file performs a
blocking send: with no receiver ready the Watchdog blocks rather than
dropping the wake. -/
theorem wake_channel_unbuffered_blocking (s : TraceStat) (key : String)
    (hall : ∀ p ∈ s.traces, (p.2 : WakeChan).capacity = 0) :
    ((addOrGetTrace s key).1 = true → (addOrGetTrace s key).2.1.capacity = 0)
    ∧ (lookupKey s.traces key ≠ none → checkFileWake s key false = some .blocked) := by
  constructor
  · intro htrue
    unfold addOrGetTrace at htrue ⊢
    cases h : lookupKey s.traces key with
    | none => simp [h, makeWakeChan]
    | some ch => simp [h] at htrue
  · intro hsome
    unfold checkFileWake addOrGetTrace
    cases h : lookupKey s.traces key with
    | none => exact absurd h hsome
    | some ch =>
      have hcap : ch.capacity = 0 := hall (key, ch) (lookupKey_mem _ _ _ h)
      simp [chanSend, hcap]

/-- C5 witness: the amended theorem applied to an empty trace table (fresh
channel capacity) and to a table already tracking `f` (blocking wake). -/
theorem wake_channel_unbuffered_blocking_witness :
    (addOrGetTrace { traces := [] } "f").2.1.capacity = 0
    ∧ checkFileWake statF "f" false = some .blocked :=
  ⟨(wake_channel_unbuffered_blocking { traces := [] } "f" (by simp)).1 rfl,
   (wake_channel_unbuffered_blocking statF "f" (by decide)).2 (by decide)⟩

/-! ## C8: the Miner discards the roster-save error after an empty batch -/

/-- C8 counterexample: with an empty batch and a failing save, the `Mine`
loop does not return the save error — `tf.UpdateRoster()`'s result is
discarded and the Miner proceeds to block on the wake channel — refuting
the claim that the error is propagated and the Miner exits. -/
theorem mine_save_error_discarded_counterexample :
    mineIteration (.ok []) (fun _ => .ok ()) (.error "disk full") true = .continueLoop
    ∧ mineIteration (.ok []) (fun _ => .ok ()) (.error "disk full") true
        ≠ .exitErr "disk full" := by
  refine ⟨rfl, by decide⟩

/-- C8 (amended): after an empty batch the Miner persists the roster but
ignores the save result entirely: the loop's next step is decided by the
wake channel alone and is identical for any two save results. -/
theorem mine_save_error_ignored (dump : String → Except String Unit)
    (saveRes saveRes' : Except String Unit) (wakeOk : Bool) :
    mineIteration (.ok []) dump saveRes wakeOk
      = (if wakeOk then .continueLoop else .exitClean)
    ∧ mineIteration (.ok []) dump saveRes wakeOk
      = mineIteration (.ok []) dump saveRes' wakeOk := by
  refine ⟨rfl, rfl⟩

/-- C8 witness: the amended theorem at a failing save with a live wake
channel. -/
theorem mine_save_error_ignored_witness :
    mineIteration (.ok []) (fun _ => .ok ()) (.error "disk full") true
      = (if true then .continueLoop else .exitClean)
    ∧ mineIteration (.ok []) (fun _ => .ok ()) (.error "disk full") true
      = mineIteration (.ok []) (fun _ => .ok ()) (.ok ()) true :=
  mine_save_error_ignored (fun _ => .ok ()) (.error "disk full") (.ok ()) true

/-! ## C6: compareAndSet case analysis -/

/-- C6: `compareAndSet` under its exclusive lock (one atomic step here):
an existing key is reported as `errExistingCursor` without invoking the
open function and with the table unchanged — for any open function; an
absent key with a failing open propagates the (wrapped) error and leaves
the table unchanged; an absent key with a successful open inserts the
returned cursor under the key and returns it. -/
theorem compareAndSet_spec (m : CursorTracker) (key : Int)
    (f : Unit → Except String Cursor) :
    (∀ c, lookupKey m key = some c →
      compareAndSet m key f = (.error .existingCursor, m, false))
    ∧ (∀ e, lookupKey m key = none → f () = .error e →
      compareAndSet m key f =
        (.error (.openErr ("compareAndSet: error from calling open: " ++ e)), m, true))
    ∧ (∀ cur, lookupKey m key = none → f () = .ok cur →
      compareAndSet m key f = (.ok cur, setKey m key cur, true)) := by
  refine ⟨?_, ?_, ?_⟩
  · intro c hc
    unfold compareAndSet
    rw [hc]
  · intro e hnone hf
    unfold compareAndSet
    rw [hnone, hf]
  · intro cur hnone hf
    unfold compareAndSet
    rw [hnone, hf]

/-- C6 witness: the three cases of `compareAndSet_spec` at concrete
tables, keys and open functions. -/
theorem compareAndSet_spec_witness :
    compareAndSet [(1, cur1)] 1 (fun _ => .ok cur17)
      = (.error .existingCursor, [(1, cur1)], false)
    ∧ compareAndSet [] 1 (fun _ => .error "boom")
      = (.error (.openErr "compareAndSet: error from calling open: boom"), [], true)
    ∧ compareAndSet [] 17 (fun _ => .ok cur17)
      = (.ok cur17, [(17, cur17)], true) :=
  ⟨(compareAndSet_spec [(1, cur1)] 1 (fun _ => .ok cur17)).1 cur1 rfl,
   (compareAndSet_spec [] 1 (fun _ => .error "boom")).2.1 "boom" rfl rfl,
   (compareAndSet_spec [] 17 (fun _ => .ok cur17)).2.2 cur17 rfl rfl⟩

/-! ## C7: roster save/load round trip -/

/-- Decoding the marshalled entries recovers them exactly. -/
theorem decodeEntries_map (m : RosterMap) :
    decodeEntries (m.map (fun p => (p.1, jtfToJson p.2))) = some m := by
  induction m with
  | nil => rfl
  | cons p rest ih =>
    obtain ⟨k, t⟩ := p
    have ht : jsonToJtf (jtfToJson t) = some t := by cases t; rfl
    simp [decodeEntries, ht, ih]

/-- Unmarshalling inverts marshalling on any roster map. -/
theorem unmarshal_marshal (m : RosterMap) :
    unmarshalRoster (marshalRoster m) = some m :=
  decodeEntries_map m

/-- C7: `Roster.Save` upserts the record keyed by
`join(tf.DirectoryName, tf.Name)` carrying tf's name, directory, version
and offset, and reloading the document it wrote recovers exactly that
updated mapping. -/
theorem roster_save_load_roundtrip (m : RosterMap) (tf : TraceFileState) :
    (rosterSave m tf).1 = setKey m (pathJoin tf.DirectoryName tf.Name)
      { Name := tf.Name, DirectoryName := tf.DirectoryName,
        Version := tf.version, Offset := tf.offset }
    ∧ unmarshalRoster (rosterSave m tf).2 = some ((rosterSave m tf).1) := by
  refine ⟨rfl, ?_⟩
  exact unmarshal_marshal _

/-- C7 witness: saving one trace-file state into an empty roster and
reloading yields exactly the singleton mapping. -/
theorem roster_save_load_roundtrip_witness :
    unmarshalRoster
      (rosterSave [] { Name := "t.trc", DirectoryName := "/u01",
                       version := 1, offset := 42 }).2
      = some [("/u01/t.trc",
               { Name := "t.trc", DirectoryName := "/u01",
                 Version := 1, Offset := 42 })] := by
  have h := (roster_save_load_roundtrip []
    { Name := "t.trc", DirectoryName := "/u01", version := 1, offset := 42 }).2
  rw [h]
  rfl

/-! ## C9: unknown cursor short-circuits before the CPU/ELA fields -/

/-- C9: a `PARSE|EXEC|FETCH` record with a numeric cursor number that is
absent from the cursor table yields the empty non-violation with no error,
with the watch list and cursor table unchanged — with no assumption at all
on the CPU and elapsed fields, because `parseExec` checks table presence
before parsing them. -/
theorem parseExec_unknown_cursor_spec (rec : String)
    (wantSQL : List MonitoredSQL) (tracker : CursorTracker)
    (w0 w1 w2 w3 w4 w5 : String) (rest : List String) (cid : Int)
    (hty : traceRecordType rec = traceRecordTypeParseExecFetch)
    (hf : fieldsBy execSep rec = w0 :: w1 :: w2 :: w3 :: w4 :: w5 :: rest)
    (hc : Atoi w1 = some cid)
    (habs : trackerHasValue tracker cid = false) :
    parseExec rec tracker = .ok false 0 "" 0 0
    ∧ parseRecord rec wantSQL tracker = .ok emptySummary wantSQL tracker := by
  have hpe : parseExec rec tracker = .ok false 0 "" 0 0 := by
    unfold parseExec
    rw [hf]
    simp [hc, habs]
  refine ⟨hpe, ?_⟩
  unfold parseRecord
  simp [hty, traceRecordTypeInvalid, traceRecordTypeParsingInCursor,
    traceRecordTypeParseExecFetch, hpe]

/-- C9 witness: `EXEC #7:c=abc,e=def` — cursor 7 numeric and unknown,
CPU and ELA fields not numbers — returns the empty non-violation. -/
theorem parseExec_unknown_cursor_spec_witness :
    parseExec "EXEC #7:c=abc,e=def" [] = .ok false 0 "" 0 0
    ∧ parseRecord "EXEC #7:c=abc,e=def" [oeRow] [] = .ok emptySummary [oeRow] [] :=
  parseExec_unknown_cursor_spec "EXEC #7:c=abc,e=def" [oeRow] []
    "EXEC" "7" "c" "abc" "e" "def" [] 7 rfl rfl rfl rfl

/-! ## C10: loadSQL record handling -/

/-- C10: the record loop of `loadSQL` is total when every record has at
least two fields with a numeric second field; a one-field record is an
out-of-bounds index (a Go runtime panic, not an error return); a record
with exactly two fields is accepted and yields a `MonitoredSQL` whose SQL
id list is empty; a non-numeric second field is an error. -/
theorem loadSQL_totality_spec :
    (∀ records : List (List String),
      (∀ r ∈ records, 2 ≤ r.length ∧ (Atoi (r.getD 1 "")).isSome = true) →
      loadResultIsOk (loadSQLRecords records) = true)
    ∧ loadSQLRecords [["a"]] = .panicOOB
    ∧ loadSQLRecords [["tx", "5"]]
        = .ok [{ BusinessTxName := "tx", ELAThreshold := 5, SQLID := [],
                 LastELA := 0, WorstELA := 0, NumViolations := 0 }]
    ∧ loadSQLRecords [["tx", "x", "q"]]
        = .err "loadSQL: threshold is not a number" := by
  refine ⟨?_, rfl, rfl, rfl⟩
  intro records h
  induction records with
  | nil => rfl
  | cons r rest ih =>
    obtain ⟨hlen, hsome⟩ := h r (List.mem_cons_self _ _)
    have ih' := ih (fun e he => h e (List.mem_cons_of_mem _ he))
    match r, hlen with
    | a :: b :: rs, _ =>
      obtain ⟨v, hv⟩ := Option.isSome_iff_exists.mp (by simpa using hsome)
      cases hrest : loadSQLRecords rest with
      | panicOOB => rw [hrest] at ih'; simp [loadResultIsOk] at ih'
      | err msg => rw [hrest] at ih'; simp [loadResultIsOk] at ih'
      | ok s => simp [loadSQLRecords, hv, hrest, loadResultIsOk]

/-- C10 witness: the totality part applied to a concrete well-formed
watch-list record. -/
theorem loadSQL_totality_spec_witness :
    (∀ r ∈ [["tx", "5", "q"]], 2 ≤ r.length ∧ (Atoi (r.getD 1 "")).isSome = true)
    ∧ loadResultIsOk (loadSQLRecords [["tx", "5", "q"]]) = true :=
  ⟨by decide, loadSQL_totality_spec.1 [["tx", "5", "q"]] (by decide)⟩

/-! ## C1: the PARSE|EXEC|FETCH violation step of parseRecord -/

/-- C1: for a `PARSE|EXEC|FETCH` record whose cursor id is present in the
cursor table and whose numeric fields parse (hypothesis `hx`), with the
watch list containing a row for the cursor's business tx (split as
`pre ++ old :: post` with no earlier match): the parser returns a
violation summary iff `ela/1000 ≥` the cursor's stored threshold.  On a
violation it sets the row's `LastELA` to `ela/1000`, raises `WorstELA`
only when strictly exceeded, increments `NumViolations` by one, and the
summary carries the cursor's business tx, threshold and SQL id together
with the three updated stats; otherwise the watch list is returned
unchanged with the empty non-violation. -/
theorem parseRecord_parseExecFetch_spec (rec : String) (tracker : CursorTracker)
    (pre post : List MonitoredSQL) (old : MonitoredSQL)
    (cid cpu ela : Int) (ctype : String) (cur : Cursor)
    (hty : traceRecordType rec = traceRecordTypeParseExecFetch)
    (hx : parseExec rec tracker = .ok true cid ctype cpu ela)
    (hget : trackerGet tracker cid = some cur)
    (hpre : ∀ e ∈ pre, e.BusinessTxName ≠ cur.BusinessTxName)
    (hold : old.BusinessTxName = cur.BusinessTxName) :
    ((ela : Rat) / 1000 < (cur.ELAThreshold : Rat) →
      parseRecord rec (pre ++ old :: post) tracker
        = .ok emptySummary (pre ++ old :: post) tracker)
    ∧ (¬ (ela : Rat) / 1000 < (cur.ELAThreshold : Rat) →
      parseRecord rec (pre ++ old :: post) tracker
        = .ok { isViolation := true, businessTxName := cur.BusinessTxName,
                threshold := (cur.ELAThreshold : Rat), sqlID := cur.SQLID,
                worstELA := if old.WorstELA < (ela : Rat) / 1000
                            then (ela : Rat) / 1000 else old.WorstELA,
                lastELA := (ela : Rat) / 1000,
                numViolations := old.NumViolations + 1 }
            (pre ++ { old with
                      LastELA := (ela : Rat) / 1000,
                      WorstELA := if old.WorstELA < (ela : Rat) / 1000
                                  then (ela : Rat) / 1000 else old.WorstELA,
                      NumViolations := old.NumViolations + 1 } :: post)
            tracker) := by
  have hsv := setViolations_found pre post old cur.BusinessTxName
    (cur.ELAThreshold : Rat) cur.SQLID ((ela : Rat) / 1000) hpre hold
  constructor
  · intro hlt
    unfold parseRecord
    simp only [hty, traceRecordTypeInvalid, traceRecordTypeParsingInCursor,
      traceRecordTypeParseExecFetch, hx, hget]
    norm_num
    intro hge
    exact absurd hlt (not_lt.mpr hge)
  · intro hge
    unfold parseRecord
    simp only [hty, traceRecordTypeInvalid, traceRecordTypeParsingInCursor,
      traceRecordTypeParseExecFetch, hx, hget]
    norm_num
    rw [if_neg hge, hsv]

/-- C1 witness: the spec's scenario S2 — `EXEC #17:c=2000,e=5000` against
cursor 17 (`OE`, threshold 1 ms): 5 ms ≥ 1 ms, so the `OE` row becomes
`last = worst = 5`, `violations = 1`, and that summary is returned. -/
theorem parseRecord_parseExecFetch_spec_witness :
    parseRecord "EXEC #17:c=2000,e=5000" [oeRow] [(17, cur17)]
      = .ok { isViolation := true, businessTxName := "OE", threshold := 1,
              sqlID := "abc", worstELA := 5, lastELA := 5, numViolations := 1 }
          [{ BusinessTxName := "OE", ELAThreshold := 1, SQLID := ["abc"],
             LastELA := 5, WorstELA := 5, NumViolations := 1 }]
          [(17, cur17)] := by
  have h := (parseRecord_parseExecFetch_spec "EXEC #17:c=2000,e=5000"
    [(17, cur17)] [] [] oeRow 17 2000 5000 "EXEC" cur17
    rfl rfl rfl (by simp) rfl).2 (by norm_num [cur17, NewCursor])
  simp only [List.nil_append] at h
  rw [h]
  simp only [cur17, oeRow, NewCursor]
  norm_num

end Rtta
